import Mathlib

/-!
Shallow embedding of `src/app.py` (AI Character Animation Studio, a Streamlit
front-end over the fal.ai generative API), and proofs about its behaviour.

The app is a single script: a sidebar computes a numeric safety tolerance from
a checkbox and a three-way slider; four tabs each contain a button handler.
The Text-to-Image and Image-Editor handlers build an arguments mapping and
pass it to `fal_client.subscribe` inside a try/except that displays the
message of any raised exception; the Character-Animation and Video-Generator
handlers only display static text.

Modelling conventions:
* Python float literals (0.5, 0.7, 0.9) are embedded as rationals; the app
  only ever compares and forwards them, never computes with them.
* A `subscribe` argument mapping is an association list from string keys to
  values (strings or numbers), in the order of the Python dict literal.
* The remote service and the HTTP download are an environment of fallible
  functions (`Except String`); an `Except.error e` stands for a raised
  exception whose `str(e)` is `e`.
* A button-click handler returns the updated session state together with the
  list of observable UI events it produced, in order.  A
  `Event.subscribeCall` event records each job submission with its endpoint
  and arguments.
* `PIL.Image.open` at line 194 re-opens a file already opened and displayed
  at line 172 of the same script run; it is modelled as total.
-/

/-- The three options of the sidebar's safety-level slider (line 37). -/
inductive SafetyLevel where
  | Strict
  | Moderate
  | Creative
deriving DecidableEq, Repr

/-- A value in a `subscribe` arguments mapping: the app passes strings
(prompt, aspect ratio) and numbers (safety tolerance, seed, step count). -/
inductive Value where
  | str : String → Value
  | num : ℚ → Value
deriving DecidableEq, Repr

/-- An arguments mapping, as the ordered key/value list of the Python dict
literal. -/
abbrev Args := List (String × Value)

/-- Association-list lookup of a key, first match wins (Python dict access
`d[k]` on the literal dicts of the app). -/
def dictLookup {α : Type} (k : String) : List (String × α) → Option α
  | [] => none
  | (k2, v) :: rest => if k2 = k then some v else dictLookup k rest

/-- One entry of the response's output asset list: `{"url": ...}`. -/
structure FalImage where
  url : String
deriving DecidableEq, Repr

/-- The response of `fal_client.subscribe`: a mapping with an `images` list
(the only part of it the app reads). -/
structure FalResult where
  images : List FalImage
deriving DecidableEq, Repr

/-- Streamlit session state: the only keys the script ever writes are
`last_generated_image_url` (line 139) and `last_edited_image_url`
(line 217); absent is `none`. -/
structure AppState where
  last_generated_image_url : Option String
  last_edited_image_url : Option String
deriving DecidableEq, Repr

/-- The external world: the generative service (`fal_client.subscribe`,
taking an endpoint id and an arguments mapping) and the HTTP download
(`requests.get(url).content`).  Either may raise, modelled as
`Except.error` carrying the exception message. -/
structure RemoteEnv where
  subscribe : String → Args → Except String FalResult
  httpGet : String → Except String (List Nat)

/-- Observable UI events a handler can produce, in order of emission. -/
inductive Event where
  | subscribeCall : String → Args → Event
  | errorShown : String → Event
  | imageShown : String → Event
  | downloadOffered : String → Event
  | infoShown : String → Event
  | warnShown : String → Event
  | successShown : Event
deriving DecidableEq, Repr

/-- The job submissions contained in an event list, in order. -/
def subscribeCalls : List Event → List (String × Args)
  | [] => []
  | Event.subscribeCall ep a :: rest => (ep, a) :: subscribeCalls rest
  | _ :: rest => subscribeCalls rest

/-- Sidebar lines 43-48: the numeric safety parameter computed from the
checkbox and the three-way slider. -/
def safety_tolerance (safety_enabled : Bool) (safety_level : SafetyLevel) : ℚ :=
  if safety_enabled = true ∧ safety_level = SafetyLevel.Strict then 0.5
  else if safety_enabled = true ∧ safety_level = SafetyLevel.Moderate then 0.7
  else 0.9

/-- The options of the Aspect Ratio selectbox (lines 97-100). -/
def aspectOptions : List String :=
  ["1:1 (Square)", "16:9 (Landscape)", "9:16 (Portrait)"]

/-- The `aspect_map` dict literal (lines 101-105). -/
def aspect_map : List (String × String) :=
  [("1:1 (Square)", "1:1"), ("16:9 (Landscape)", "16:9"), ("9:16 (Portrait)", "9:16")]

/-- `aspect_map[aspect_ratio]`: `none` models a raised `KeyError`. -/
def aspectLookup (k : String) : Option String :=
  dictLookup k aspect_map

/-- Endpoint of the Text-to-Image submission (line 115). -/
def t2iEndpoint : String := "fal-ai/flux-pro/v1.1"

/-- Endpoint of the Image-Editor submission (line 199). -/
def editEndpoint : String := "fal-ai/flux-schnell"

/-- The arguments dict of the Text-to-Image submission (lines 116-121),
given the already-mapped aspect ratio `a`. -/
def t2iArgsOf (prompt a : String) (safety_enabled : Bool) (safety_level : SafetyLevel) : Args :=
  [("prompt", Value.str prompt),
   ("aspect_ratio", Value.str a),
   ("safety_tolerance",
     Value.num (if safety_enabled then safety_tolerance safety_enabled safety_level else 0.9)),
   ("seed", Value.num 42)]

/-- The arguments dict of the Image-Editor submission (lines 200-204).  It
takes no image: the computed `image_url` local is not among the keys. -/
def editorArgs (edit_prompt : String) (safety_enabled : Bool) (safety_level : SafetyLevel) : Args :=
  [("prompt", Value.str edit_prompt),
   ("safety_tolerance",
     Value.num (if safety_enabled then safety_tolerance safety_enabled safety_level else 0.9)),
   ("num_inference_steps", Value.num 4)]

/-- Whitespace characters removed by Python `str.strip()`. -/
def isSpaceChar (c : Char) : Bool :=
  c = ' ' || c = '\t' || c = '\n' || c = '\x0d' || c = '\x0b' || c = '\x0c'

/-- The test `not prompt.strip()`: true exactly when the string is empty or
consists only of whitespace. -/
def isBlank (s : String) : Bool :=
  s.data.all isSpaceChar

/-- Message of the `IndexError` raised by `result["images"][0]` on an empty
list. -/
def indexErrMsg : String := "list index out of range"

/-- Message of the `KeyError` raised by `aspect_map[aspect_ratio]`. -/
def keyErrMsg (k : String) : String := "KeyError: " ++ k

/-- The error text displayed by the except branches (lines 143 and 221). -/
def errMsg (e : String) : String := "❌ Error: " ++ e

/-- The try block of the Generate Image handler (lines 112-141): build the
arguments (the `aspect_map` lookup may raise), submit the job, index the
response, display the image, download it, store the URL, report success.
Returns the events emitted before returning or raising, and either the
updated state or the escaping exception's message. -/
def t2iBody (env : RemoteEnv) (s : AppState) (prompt aspect_ratio : String)
    (safety_enabled : Bool) (safety_level : SafetyLevel) :
    List Event × Except String AppState :=
  match aspectLookup aspect_ratio with
  | none => ([], Except.error (keyErrMsg aspect_ratio))
  | some a =>
    let args := t2iArgsOf prompt a safety_enabled safety_level
    match env.subscribe t2iEndpoint args with
    | Except.error e => ([Event.subscribeCall t2iEndpoint args], Except.error e)
    | Except.ok result =>
      match result.images.head? with
      | none => ([Event.subscribeCall t2iEndpoint args], Except.error indexErrMsg)
      | some img =>
        match env.httpGet img.url with
        | Except.error e =>
          ([Event.subscribeCall t2iEndpoint args, Event.imageShown img.url], Except.error e)
        | Except.ok _ =>
          ([Event.subscribeCall t2iEndpoint args, Event.imageShown img.url,
            Event.downloadOffered img.url, Event.successShown],
           Except.ok { s with last_generated_image_url := some img.url })

/-- The Generate Image button handler (lines 107-143): reject a blank
prompt, otherwise run the try block; any exception is caught and its
message displayed, leaving the state unchanged. -/
def genImageClick (env : RemoteEnv) (s : AppState) (prompt aspect_ratio : String)
    (safety_enabled : Bool) (safety_level : SafetyLevel) : AppState × List Event :=
  if isBlank prompt then (s, [Event.errorShown "Please enter a prompt"])
  else
    match t2iBody env s prompt aspect_ratio safety_enabled safety_level with
    | (evs, Except.ok s2) => (s2, evs)
    | (evs, Except.error e) => (s, evs ++ [Event.errorShown (errMsg e)])

/-- The image handed to the Image Editor (lines 155-174): either a URL
string (the Use Last Generated Image path, line 164) or an uploaded file,
modelled as its raw bytes. -/
inductive EditImage where
  | urlImage : String → EditImage
  | fileImage : List Nat → EditImage
deriving DecidableEq, Repr

/-- The Use Last Generated Image button (lines 162-164): the only read of
session state by another screen; it hands the stored URL to the editor. -/
def useLastGeneratedClick (s : AppState) : Option EditImage :=
  s.last_generated_image_url.map EditImage.urlImage

/-- The try block of the Apply Edits handler (lines 188-218): compute a
local `image_url` (URL as-is, or the placeholder after converting a file),
submit the job — whose arguments do not mention the image —, index the
response, display, download, store the URL, report success. -/
def editBody (env : RemoteEnv) (s : AppState) (image_for_edit : EditImage)
    (edit_prompt : String) (safety_enabled : Bool) (safety_level : SafetyLevel) :
    List Event × Except String AppState :=
  let pre : List Event × String :=
    match image_for_edit with
    | EditImage.urlImage u => ([], u)
    | EditImage.fileImage _ =>
      ([Event.infoShown "Converting image for API..."], "placeholder_url")
  let image_url := pre.2
  let _ := image_url
  let args := editorArgs edit_prompt safety_enabled safety_level
  match env.subscribe editEndpoint args with
  | Except.error e => (pre.1 ++ [Event.subscribeCall editEndpoint args], Except.error e)
  | Except.ok result =>
    match result.images.head? with
    | none => (pre.1 ++ [Event.subscribeCall editEndpoint args], Except.error indexErrMsg)
    | some img =>
      match env.httpGet img.url with
      | Except.error e =>
        (pre.1 ++ [Event.subscribeCall editEndpoint args, Event.imageShown img.url],
         Except.error e)
      | Except.ok _ =>
        (pre.1 ++ [Event.subscribeCall editEndpoint args, Event.imageShown img.url,
           Event.downloadOffered img.url, Event.successShown],
         Except.ok { s with last_edited_image_url := some img.url })

/-- The Apply Edits button handler (lines 183-221): reject a blank edit
prompt, otherwise run the try block; any exception is caught and its
message displayed, leaving the state unchanged. -/
def applyEditsClick (env : RemoteEnv) (s : AppState) (image_for_edit : EditImage)
    (edit_prompt : String) (safety_enabled : Bool) (safety_level : SafetyLevel) :
    AppState × List Event :=
  if isBlank edit_prompt then (s, [Event.errorShown "Please describe the changes you want"])
  else
    match editBody env s image_for_edit edit_prompt safety_enabled safety_level with
    | (evs, Except.ok s2) => (s2, evs)
    | (evs, Except.error e) => (s, evs ++ [Event.errorShown (errMsg e)])

/-- The constant help text shown by the Generate Talking Avatar handler
(lines 272-290): a processing notice, a warning pointing at FAL's web UI,
and step-by-step instructions for the hosted console. -/
def avatarHelpEvents : List Event :=
  [Event.infoShown "⏳ Processing: This uses Kling Avatar v2 API. Please wait...",
   Event.warnShown "Note: Full implementation requires uploading files to cloud storage (S3, etc). For testing, use FAL web UI at https://fal.ai/models/fal-ai/kling-video/ai-avatar/v2/pro",
   Event.infoShown "📌 Quick alternative: 1. Go to FAL.ai, Kling Avatar v2 2. Upload your portrait 3. Upload/record audio 4. Generate!"]

/-- The Generate Talking Avatar button handler (lines 268-293): with both
uploads present it only displays static help text; it never submits a
job. -/
def genAvatarClick (portrait audio : Option (List Nat)) : List Event :=
  if portrait.isNone || audio.isNone then
    [Event.errorShown "Please upload both portrait and audio"]
  else avatarHelpEvents

/-- The constant text shown by the Transfer Motion handler (lines 330-333). -/
def motionHelpEvents : List Event :=
  [Event.warnShown "⚠️ Full implementation requires uploading files to FAL storage. Use FAL.ai directly: https://fal.ai/models/fal-ai/kling-video/v2.6/standard/motion-control"]

/-- The Transfer Motion button handler (lines 326-333): with both uploads
present it only displays a static warning pointing at the hosted UI. -/
def transferMotionClick (char_image ref_video : Option (List Nat)) : List Event :=
  if char_image.isNone || ref_video.isNone then
    [Event.errorShown "Please upload both character image and reference video"]
  else motionHelpEvents

/-- The Image-to-Video Generate Video button handler (lines 365-376): with
a non-blank motion prompt it only displays static credit-usage and hosted-UI
text. -/
def i2vHelpEvents : List Event :=
  [Event.warnShown "⚠️ Video generation requires FAL credit usage. This would cost about 0.5-2 credits per video",
   Event.infoShown "Test at: https://fal.ai/models/fal-ai/kling-video/v2.6/standard Upload your image and prompt!"]

def genI2VClick (uploaded_img : List Nat) (motion_prompt : String) : List Event :=
  let _ := uploaded_img
  if isBlank motion_prompt then [Event.errorShown "Please describe the motion"]
  else i2vHelpEvents

/-- The Text-to-Video Generate Video button handler (lines 388-397): with a
non-blank prompt it only displays static credit-usage and hosted-UI text. -/
def t2vHelpEvents : List Event :=
  [Event.warnShown "⚠️ Text-to-video generation requires FAL credit usage.",
   Event.infoShown "📌 Test with Kling 2.6 at: https://fal.ai/models/fal-ai/kling-video/v2.6/standard"]

def genT2VClick (text_prompt : String) : List Event :=
  if isBlank text_prompt then [Event.errorShown "Please enter a video description"]
  else t2vHelpEvents

/-- Fresh session state: neither URL key present. -/
def s0 : AppState :=
  { last_generated_image_url := none, last_edited_image_url := none }

/-- A remote environment in which every call succeeds and the response
carries one image. -/
def goodEnv : RemoteEnv :=
  { subscribe := fun _ _ => Except.ok { images := [{ url := "http://img/1" }] },
    httpGet := fun _ => Except.ok [0] }

/-- A remote environment in which the job submission raises. -/
def badEnv : RemoteEnv :=
  { subscribe := fun _ _ => Except.error "boom",
    httpGet := fun _ => Except.error "net down" }

/-- A session state with both URL keys already present. -/
def s1 : AppState :=
  { last_generated_image_url := some "g", last_edited_image_url := some "x" }

/-- Sanity check of the embedding on one fully successful run. -/
theorem genImageClick_success_run :
    genImageClick
      { subscribe := fun _ _ => Except.ok { images := [{ url := "u" }] },
        httpGet := fun _ => Except.ok [0] }
      { last_generated_image_url := none, last_edited_image_url := none }
      "a cat" "1:1 (Square)" true SafetyLevel.Moderate
    = ({ last_generated_image_url := some "u", last_edited_image_url := none },
       [Event.subscribeCall t2iEndpoint
          [("prompt", Value.str "a cat"), ("aspect_ratio", Value.str "1:1"),
           ("safety_tolerance", Value.num 0.7), ("seed", Value.num 42)],
        Event.imageShown "u", Event.downloadOffered "u", Event.successShown]) := by
  rfl

theorem subscribeCalls_append (l1 l2 : List Event) :
    subscribeCalls (l1 ++ l2) = subscribeCalls l1 ++ subscribeCalls l2 := by
  induction l1 with
  | nil => rfl
  | cons e rest ih => cases e <;> simp [subscribeCalls, ih]

theorem subscribeCalls_t2iBody (env : RemoteEnv) (s : AppState) (p ar : String)
    (se : Bool) (lv : SafetyLevel) :
    subscribeCalls (t2iBody env s p ar se lv).1 =
      match aspectLookup ar with
      | none => []
      | some a => [(t2iEndpoint, t2iArgsOf p a se lv)] := by
  rcases h : aspectLookup ar with _ | a
  · simp [t2iBody, h, subscribeCalls]
  · rcases h2 : env.subscribe t2iEndpoint (t2iArgsOf p a se lv) with e | result
    · simp [t2iBody, h, h2, subscribeCalls]
    · rcases h3 : result.images.head? with _ | img
      · simp [t2iBody, h, h2, h3, subscribeCalls]
      · rcases h4 : env.httpGet img.url with e | bs
        · simp [t2iBody, h, h2, h3, h4, subscribeCalls]
        · simp [t2iBody, h, h2, h3, h4, subscribeCalls]

theorem subscribeCalls_editBody (env : RemoteEnv) (s : AppState) (img : EditImage)
    (ep : String) (se : Bool) (lv : SafetyLevel) :
    subscribeCalls (editBody env s img ep se lv).1 =
      [(editEndpoint, editorArgs ep se lv)] := by
  rcases h2 : env.subscribe editEndpoint (editorArgs ep se lv) with e | result
  · cases img <;> simp [editBody, h2, subscribeCalls]
  · rcases h3 : result.images.head? with _ | im
    · cases img <;> simp [editBody, h2, h3, subscribeCalls]
    · rcases h4 : env.httpGet im.url with e | bs
      · cases img <;> simp [editBody, h2, h3, h4, subscribeCalls]
      · cases img <;> simp [editBody, h2, h3, h4, subscribeCalls]

theorem genImageClick_of_blank (env : RemoteEnv) (s : AppState) (p ar : String)
    (se : Bool) (lv : SafetyLevel) (hb : isBlank p = true) :
    genImageClick env s p ar se lv = (s, [Event.errorShown "Please enter a prompt"]) := by
  simp [genImageClick, hb]

theorem genImageClick_of_error (env : RemoteEnv) (s : AppState) (p ar : String)
    (se : Bool) (lv : SafetyLevel) (evs : List Event) (e : String)
    (hb : isBlank p = false) (h : t2iBody env s p ar se lv = (evs, Except.error e)) :
    genImageClick env s p ar se lv = (s, evs ++ [Event.errorShown (errMsg e)]) := by
  simp [genImageClick, hb, h]

theorem genImageClick_of_ok (env : RemoteEnv) (s : AppState) (p ar : String)
    (se : Bool) (lv : SafetyLevel) (evs : List Event) (s2 : AppState)
    (hb : isBlank p = false) (h : t2iBody env s p ar se lv = (evs, Except.ok s2)) :
    genImageClick env s p ar se lv = (s2, evs) := by
  simp [genImageClick, hb, h]

theorem applyEditsClick_of_blank (env : RemoteEnv) (s : AppState) (img : EditImage)
    (ep : String) (se : Bool) (lv : SafetyLevel) (hb : isBlank ep = true) :
    applyEditsClick env s img ep se lv
      = (s, [Event.errorShown "Please describe the changes you want"]) := by
  simp [applyEditsClick, hb]

theorem applyEditsClick_of_error (env : RemoteEnv) (s : AppState) (img : EditImage)
    (ep : String) (se : Bool) (lv : SafetyLevel) (evs : List Event) (e : String)
    (hb : isBlank ep = false) (h : editBody env s img ep se lv = (evs, Except.error e)) :
    applyEditsClick env s img ep se lv = (s, evs ++ [Event.errorShown (errMsg e)]) := by
  simp [applyEditsClick, hb, h]

theorem applyEditsClick_of_ok (env : RemoteEnv) (s : AppState) (img : EditImage)
    (ep : String) (se : Bool) (lv : SafetyLevel) (evs : List Event) (s2 : AppState)
    (hb : isBlank ep = false) (h : editBody env s img ep se lv = (evs, Except.ok s2)) :
    applyEditsClick env s img ep se lv = (s2, evs) := by
  simp [applyEditsClick, hb, h]

theorem t2iBody_ok (env : RemoteEnv) (s : AppState) (p ar : String)
    (se : Bool) (lv : SafetyLevel) (evs : List Event) (s2 : AppState)
    (h : t2iBody env s p ar se lv = (evs, Except.ok s2)) :
    ∃ a result img,
      aspectLookup ar = some a ∧
      env.subscribe t2iEndpoint (t2iArgsOf p a se lv) = Except.ok result ∧
      result.images.head? = some img ∧
      s2 = { s with last_generated_image_url := some img.url } := by
  rcases h1 : aspectLookup ar with _ | a
  · simp [t2iBody, h1] at h
  · rcases h2 : env.subscribe t2iEndpoint (t2iArgsOf p a se lv) with e | result
    · simp [t2iBody, h1, h2] at h
    · rcases h3 : result.images.head? with _ | img
      · simp [t2iBody, h1, h2, h3] at h
      · rcases h4 : env.httpGet img.url with e | bs
        · simp [t2iBody, h1, h2, h3, h4] at h
        · refine ⟨a, result, img, rfl, h2, h3, ?_⟩
          simp [t2iBody, h1, h2, h3, h4] at h
          exact h.2.symm

theorem editBody_ok (env : RemoteEnv) (s : AppState) (img : EditImage)
    (ep : String) (se : Bool) (lv : SafetyLevel) (evs : List Event) (s2 : AppState)
    (h : editBody env s img ep se lv = (evs, Except.ok s2)) :
    ∃ result im,
      env.subscribe editEndpoint (editorArgs ep se lv) = Except.ok result ∧
      result.images.head? = some im ∧
      s2 = { s with last_edited_image_url := some im.url } := by
  rcases h2 : env.subscribe editEndpoint (editorArgs ep se lv) with e | result
  · cases img <;> simp [editBody, h2] at h
  · rcases h3 : result.images.head? with _ | im
    · cases img <;> simp [editBody, h2, h3] at h
    · rcases h4 : env.httpGet im.url with e | bs
      · cases img <;> simp [editBody, h2, h3, h4] at h
      · refine ⟨result, im, rfl, h3, ?_⟩
        cases img <;> simp [editBody, h2, h3, h4] at h <;> exact h.2.symm

theorem subscribeCalls_genImageClick_blank (env : RemoteEnv) (s : AppState)
    (p ar : String) (se : Bool) (lv : SafetyLevel) (hb : isBlank p = true) :
    subscribeCalls (genImageClick env s p ar se lv).2 = [] := by
  rw [genImageClick_of_blank env s p ar se lv hb]
  rfl

theorem subscribeCalls_genImageClick_keyerr (env : RemoteEnv) (s : AppState)
    (p ar : String) (se : Bool) (lv : SafetyLevel)
    (hb : isBlank p = false) (ha : aspectLookup ar = none) :
    subscribeCalls (genImageClick env s p ar se lv).2 = [] := by
  have hbody : t2iBody env s p ar se lv = ([], Except.error (keyErrMsg ar)) := by
    simp [t2iBody, ha]
  rw [genImageClick_of_error env s p ar se lv [] (keyErrMsg ar) hb hbody]
  rfl

theorem subscribeCalls_genImageClick_some (env : RemoteEnv) (s : AppState)
    (p ar : String) (se : Bool) (lv : SafetyLevel) (a : String)
    (hb : isBlank p = false) (ha : aspectLookup ar = some a) :
    subscribeCalls (genImageClick env s p ar se lv).2
      = [(t2iEndpoint, t2iArgsOf p a se lv)] := by
  have hcalls := subscribeCalls_t2iBody env s p ar se lv
  rw [ha] at hcalls
  rcases hbody : t2iBody env s p ar se lv with ⟨evs, r⟩
  rw [hbody] at hcalls
  cases r with
  | ok s2 =>
    rw [genImageClick_of_ok env s p ar se lv evs s2 hb hbody]
    exact hcalls
  | error e =>
    rw [genImageClick_of_error env s p ar se lv evs e hb hbody,
        subscribeCalls_append]
    simpa [subscribeCalls] using hcalls

theorem subscribeCalls_applyEditsClick_blank (env : RemoteEnv) (s : AppState)
    (img : EditImage) (ep : String) (se : Bool) (lv : SafetyLevel)
    (hb : isBlank ep = true) :
    subscribeCalls (applyEditsClick env s img ep se lv).2 = [] := by
  rw [applyEditsClick_of_blank env s img ep se lv hb]
  rfl

theorem subscribeCalls_applyEditsClick_go (env : RemoteEnv) (s : AppState)
    (img : EditImage) (ep : String) (se : Bool) (lv : SafetyLevel)
    (hb : isBlank ep = false) :
    subscribeCalls (applyEditsClick env s img ep se lv).2
      = [(editEndpoint, editorArgs ep se lv)] := by
  have hcalls := subscribeCalls_editBody env s img ep se lv
  rcases hbody : editBody env s img ep se lv with ⟨evs, r⟩
  rw [hbody] at hcalls
  cases r with
  | ok s2 =>
    rw [applyEditsClick_of_ok env s img ep se lv evs s2 hb hbody]
    exact hcalls
  | error e =>
    rw [applyEditsClick_of_error env s img ep se lv evs e hb hbody,
        subscribeCalls_append]
    simpa [subscribeCalls] using hcalls

/-- C1 counterexample: the Image Editor handler does submit a job, but its
argument mapping — recorded on an actual click with a concrete image and
prompt — contains neither an aspect ratio nor a duration, refuting the claim
that every submission carries a prompt, a safety tolerance, and either an
aspect ratio or a duration. -/
theorem c1_editor_args_lack_aspect_and_duration :
    subscribeCalls (applyEditsClick goodEnv s0 (EditImage.urlImage "http://img/0")
        "make the sky purple" true SafetyLevel.Moderate).2
      = [(editEndpoint, editorArgs "make the sky purple" true SafetyLevel.Moderate)] ∧
    dictLookup "aspect_ratio" (editorArgs "make the sky purple" true SafetyLevel.Moderate)
      = none ∧
    dictLookup "duration" (editorArgs "make the sky purple" true SafetyLevel.Moderate)
      = none := by
  exact ⟨rfl, rfl, rfl⟩

/-- C1 (amended): both request-building handlers pass a prompt and a safety
tolerance; the Text-to-Image mapping additionally carries an aspect ratio,
while the Image Editor mapping carries neither an aspect ratio nor a
duration (its remaining argument is the inference step count). -/
theorem c1_request_args_contents (p a ep : String) (se : Bool) (lv : SafetyLevel) :
    dictLookup "prompt" (t2iArgsOf p a se lv) = some (Value.str p) ∧
    dictLookup "safety_tolerance" (t2iArgsOf p a se lv)
      = some (Value.num (if se then safety_tolerance se lv else 0.9)) ∧
    dictLookup "aspect_ratio" (t2iArgsOf p a se lv) = some (Value.str a) ∧
    dictLookup "prompt" (editorArgs ep se lv) = some (Value.str ep) ∧
    dictLookup "safety_tolerance" (editorArgs ep se lv)
      = some (Value.num (if se then safety_tolerance se lv else 0.9)) ∧
    dictLookup "num_inference_steps" (editorArgs ep se lv) = some (Value.num 4) ∧
    dictLookup "aspect_ratio" (editorArgs ep se lv) = none ∧
    dictLookup "duration" (editorArgs ep se lv) = none := by
  exact ⟨rfl, rfl, rfl, rfl, rfl, rfl, rfl, rfl⟩

/-- C2: with safety enabled the slider maps Strict to 0.5, Moderate to 0.7
and Creative to 0.9; with safety disabled the value is 0.9 whatever the
slider; the safety_tolerance argument of both request builders equals the
computed value; and the computed value is always one of 0.5, 0.7, 0.9. -/
theorem c2_safety_tolerance_mapping (se : Bool) (lv : SafetyLevel) (p a ep : String) :
    safety_tolerance true SafetyLevel.Strict = 0.5 ∧
    safety_tolerance true SafetyLevel.Moderate = 0.7 ∧
    safety_tolerance true SafetyLevel.Creative = 0.9 ∧
    (∀ l : SafetyLevel, safety_tolerance false l = 0.9) ∧
    dictLookup "safety_tolerance" (t2iArgsOf p a se lv)
      = some (Value.num (safety_tolerance se lv)) ∧
    dictLookup "safety_tolerance" (editorArgs ep se lv)
      = some (Value.num (safety_tolerance se lv)) ∧
    (safety_tolerance se lv = 0.5 ∨ safety_tolerance se lv = 0.7 ∨
     safety_tolerance se lv = 0.9) := by
  refine ⟨rfl, rfl, rfl, fun l => rfl, ?_, ?_, ?_⟩
  · cases se
    · rfl
    · rfl
  · cases se
    · rfl
    · rfl
  · cases se <;> cases lv
    · exact Or.inr (Or.inr rfl)
    · exact Or.inr (Or.inr rfl)
    · exact Or.inr (Or.inr rfl)
    · exact Or.inl rfl
    · exact Or.inr (Or.inl rfl)
    · exact Or.inr (Or.inr rfl)

/-- C3: in both remote-calling handlers, an exception escaping the try body
(whether from the submission, the response indexing, or the download) is
caught: the handler returns normally with the session state unchanged and
the exception's message displayed after the events already emitted; and on
any click of either handler the remote service is invoked at most once. -/
theorem c3_exceptions_caught_and_single_call (env : RemoteEnv) (s : AppState)
    (p ar ep : String) (img : EditImage) (se : Bool) (lv : SafetyLevel)
    (evs1 evs2 : List Event) (e1 e2 : String)
    (hb1 : isBlank p = false) (hb2 : isBlank ep = false)
    (h1 : t2iBody env s p ar se lv = (evs1, Except.error e1))
    (h2 : editBody env s img ep se lv = (evs2, Except.error e2)) :
    genImageClick env s p ar se lv = (s, evs1 ++ [Event.errorShown (errMsg e1)]) ∧
    applyEditsClick env s img ep se lv = (s, evs2 ++ [Event.errorShown (errMsg e2)]) ∧
    (∀ (env2 : RemoteEnv) (s2 : AppState) (p2 a2 : String) (b2 : Bool) (l2 : SafetyLevel),
       (subscribeCalls (genImageClick env2 s2 p2 a2 b2 l2).2).length ≤ 1) ∧
    (∀ (env2 : RemoteEnv) (s2 : AppState) (i2 : EditImage) (p2 : String)
       (b2 : Bool) (l2 : SafetyLevel),
       (subscribeCalls (applyEditsClick env2 s2 i2 p2 b2 l2).2).length ≤ 1) := by
  refine ⟨genImageClick_of_error env s p ar se lv evs1 e1 hb1 h1,
          applyEditsClick_of_error env s img ep se lv evs2 e2 hb2 h2, ?_, ?_⟩
  · intro env2 s2 p2 a2 b2 l2
    by_cases hb : isBlank p2
    · rw [subscribeCalls_genImageClick_blank env2 s2 p2 a2 b2 l2 hb]
      exact Nat.zero_le 1
    · simp only [Bool.not_eq_true] at hb
      rcases ha : aspectLookup a2 with _ | a
      · rw [subscribeCalls_genImageClick_keyerr env2 s2 p2 a2 b2 l2 hb ha]
        exact Nat.zero_le 1
      · rw [subscribeCalls_genImageClick_some env2 s2 p2 a2 b2 l2 a hb ha]
        exact le_refl 1
  · intro env2 s2 i2 p2 b2 l2
    by_cases hb : isBlank p2
    · rw [subscribeCalls_applyEditsClick_blank env2 s2 i2 p2 b2 l2 hb]
      exact Nat.zero_le 1
    · simp only [Bool.not_eq_true] at hb
      rw [subscribeCalls_applyEditsClick_go env2 s2 i2 p2 b2 l2 hb]
      exact le_refl 1

/-- C3 witness: with a service that raises "boom", both handlers return the
unchanged fresh state and display the message after the recorded
submission. -/
theorem c3_witness :
    genImageClick badEnv s0 "p" "1:1 (Square)" true SafetyLevel.Moderate
      = (s0, [Event.subscribeCall t2iEndpoint (t2iArgsOf "p" "1:1" true SafetyLevel.Moderate),
              Event.errorShown (errMsg "boom")]) ∧
    applyEditsClick badEnv s0 (EditImage.urlImage "u") "q" true SafetyLevel.Moderate
      = (s0, [Event.subscribeCall editEndpoint (editorArgs "q" true SafetyLevel.Moderate),
              Event.errorShown (errMsg "boom")]) := by
  have h := c3_exceptions_caught_and_single_call badEnv s0 "p" "1:1 (Square)" "q"
    (EditImage.urlImage "u") true SafetyLevel.Moderate
    [Event.subscribeCall t2iEndpoint (t2iArgsOf "p" "1:1" true SafetyLevel.Moderate)]
    [Event.subscribeCall editEndpoint (editorArgs "q" true SafetyLevel.Moderate)]
    "boom" "boom" rfl rfl rfl rfl
  exact ⟨h.1, h.2.1⟩

/-- C4: the stored last-generated-image URL is overwritten exactly on
successful generation: when the try body of the Generate Image handler
raises, the session value keeps its previous value; when it completes, the
value is set to the URL of the first image of the response. -/
theorem c4_url_overwritten_only_on_success (env : RemoteEnv) (s : AppState)
    (p ar : String) (se : Bool) (lv : SafetyLevel) :
    (∀ (evs : List Event) (e : String),
       t2iBody env s p ar se lv = (evs, Except.error e) →
       (genImageClick env s p ar se lv).1.last_generated_image_url
         = s.last_generated_image_url) ∧
    (∀ (evs : List Event) (s2 : AppState),
       isBlank p = false →
       t2iBody env s p ar se lv = (evs, Except.ok s2) →
       ∃ a result img,
         aspectLookup ar = some a ∧
         env.subscribe t2iEndpoint (t2iArgsOf p a se lv) = Except.ok result ∧
         result.images.head? = some img ∧
         (genImageClick env s p ar se lv).1.last_generated_image_url = some img.url) := by
  constructor
  · intro evs e h
    by_cases hb : isBlank p
    · rw [genImageClick_of_blank env s p ar se lv hb]
    · simp only [Bool.not_eq_true] at hb
      rw [genImageClick_of_error env s p ar se lv evs e hb h]
  · intro evs s2 hb h
    obtain ⟨a, result, img, ha, hsub, hhead, hs2⟩ := t2iBody_ok env s p ar se lv evs s2 h
    refine ⟨a, result, img, ha, hsub, hhead, ?_⟩
    rw [genImageClick_of_ok env s p ar se lv evs s2 hb h, hs2]

/-- C4 witness: on the failing service the fresh state keeps no URL; on
the succeeding service the first image's URL is stored. -/
theorem c4_witness :
    (genImageClick badEnv s0 "p" "1:1 (Square)" true SafetyLevel.Moderate).1.last_generated_image_url
      = none ∧
    (∃ a result img,
       aspectLookup "1:1 (Square)" = some a ∧
       goodEnv.subscribe t2iEndpoint (t2iArgsOf "p" a true SafetyLevel.Moderate)
         = Except.ok result ∧
       result.images.head? = some img ∧
       (genImageClick goodEnv s0 "p" "1:1 (Square)" true SafetyLevel.Moderate).1.last_generated_image_url
         = some img.url) := by
  constructor
  · exact (c4_url_overwritten_only_on_success badEnv s0 "p" "1:1 (Square)" true
      SafetyLevel.Moderate).1
      [Event.subscribeCall t2iEndpoint (t2iArgsOf "p" "1:1" true SafetyLevel.Moderate)]
      "boom" rfl
  · exact (c4_url_overwritten_only_on_success goodEnv s0 "p" "1:1 (Square)" true
      SafetyLevel.Moderate).2
      [Event.subscribeCall t2iEndpoint (t2iArgsOf "p" "1:1" true SafetyLevel.Moderate),
       Event.imageShown "http://img/1", Event.downloadOffered "http://img/1",
       Event.successShown]
      { last_generated_image_url := some "http://img/1", last_edited_image_url := none }
      rfl rfl

/-- C5 counterexample: a successful Apply Edits click writes the session
value last_edited_image_url, which was previously absent — so
last_generated_image_url is not the only session-state value written. -/
theorem c5_editor_writes_second_session_key :
    (applyEditsClick goodEnv s0 (EditImage.urlImage "u") "add a rainbow" true
        SafetyLevel.Moderate).1.last_edited_image_url = some "http://img/1" ∧
    s0.last_edited_image_url = none := by
  exact ⟨rfl, rfl⟩

/-- C5 (amended): the session state holds exactly two written values:
last_generated_image_url, written only by the Text-to-Image handler, and
last_edited_image_url, written only by the Image Editor handler — each
handler leaves the other's key untouched; and the one cross-screen read,
the editor's Use Last Generated Image button, hands over exactly the stored
last_generated_image_url. -/
theorem c5_session_state_discipline (env : RemoteEnv) (s : AppState)
    (p ar ep : String) (img : EditImage) (se : Bool) (lv : SafetyLevel) :
    (genImageClick env s p ar se lv).1.last_edited_image_url
      = s.last_edited_image_url ∧
    (applyEditsClick env s img ep se lv).1.last_generated_image_url
      = s.last_generated_image_url ∧
    (∀ u : String, s.last_generated_image_url = some u →
       useLastGeneratedClick s = some (EditImage.urlImage u)) := by
  refine ⟨?_, ?_, ?_⟩
  · by_cases hb : isBlank p
    · rw [genImageClick_of_blank env s p ar se lv hb]
    · simp only [Bool.not_eq_true] at hb
      rcases hbody : t2iBody env s p ar se lv with ⟨evs, r⟩
      cases r with
      | error e => rw [genImageClick_of_error env s p ar se lv evs e hb hbody]
      | ok s2 =>
        rw [genImageClick_of_ok env s p ar se lv evs s2 hb hbody]
        obtain ⟨a, result, img2, _, _, _, hs2⟩ :=
          t2iBody_ok env s p ar se lv evs s2 hbody
        rw [hs2]
  · by_cases hb : isBlank ep
    · rw [applyEditsClick_of_blank env s img ep se lv hb]
    · simp only [Bool.not_eq_true] at hb
      rcases hbody : editBody env s img ep se lv with ⟨evs, r⟩
      cases r with
      | error e => rw [applyEditsClick_of_error env s img ep se lv evs e hb hbody]
      | ok s2 =>
        rw [applyEditsClick_of_ok env s img ep se lv evs s2 hb hbody]
        obtain ⟨result, im, _, _, hs2⟩ := editBody_ok env s img ep se lv evs s2 hbody
        rw [hs2]
  · intro u hu
    simp [useLastGeneratedClick, hu]

/-- C5 witness: with both keys present, a Text-to-Image click preserves the
edited URL, an Apply Edits click preserves the generated URL, and the Use
Last Generated Image button hands over the stored generated URL. -/
theorem c5_witness :
    (genImageClick goodEnv s1 "p" "1:1 (Square)" true SafetyLevel.Moderate).1.last_edited_image_url
      = some "x" ∧
    (applyEditsClick goodEnv s1 (EditImage.urlImage "u") "q" true
        SafetyLevel.Moderate).1.last_generated_image_url = some "g" ∧
    useLastGeneratedClick s1 = some (EditImage.urlImage "g") := by
  have h := c5_session_state_discipline goodEnv s1 "p" "1:1 (Square)" "q"
    (EditImage.urlImage "u") true SafetyLevel.Moderate
  exact ⟨h.1, h.2.1, h.2.2 "g" rfl⟩

/-- C6: the Character Animation handlers (talking avatar, motion transfer)
and the Video Generator handlers (image-to-video, text-to-video) never
submit a job to the remote service for any input; each produces either its
missing-input error or its fixed help text pointing at the hosted UI. -/
theorem c6_stub_tabs_never_submit (portrait audio ci rv : Option (List Nat))
    (img : List Nat) (mp tp : String) :
    subscribeCalls (genAvatarClick portrait audio) = [] ∧
    subscribeCalls (transferMotionClick ci rv) = [] ∧
    subscribeCalls (genI2VClick img mp) = [] ∧
    subscribeCalls (genT2VClick tp) = [] ∧
    (genAvatarClick portrait audio
       = [Event.errorShown "Please upload both portrait and audio"] ∨
     genAvatarClick portrait audio = avatarHelpEvents) ∧
    (transferMotionClick ci rv
       = [Event.errorShown "Please upload both character image and reference video"] ∨
     transferMotionClick ci rv = motionHelpEvents) ∧
    (genI2VClick img mp = [Event.errorShown "Please describe the motion"] ∨
     genI2VClick img mp = i2vHelpEvents) ∧
    (genT2VClick tp = [Event.errorShown "Please enter a video description"] ∨
     genT2VClick tp = t2vHelpEvents) := by
  refine ⟨?_, ?_, ?_, ?_, ?_, ?_, ?_, ?_⟩
  · cases portrait <;> cases audio <;>
      simp [genAvatarClick, avatarHelpEvents, subscribeCalls]
  · cases ci <;> cases rv <;>
      simp [transferMotionClick, motionHelpEvents, subscribeCalls]
  · by_cases hb : isBlank mp <;>
      simp [genI2VClick, i2vHelpEvents, hb, subscribeCalls]
  · by_cases hb : isBlank tp <;>
      simp [genT2VClick, t2vHelpEvents, hb, subscribeCalls]
  · cases portrait <;> cases audio <;> simp [genAvatarClick]
  · cases ci <;> cases rv <;> simp [transferMotionClick]
  · by_cases hb : isBlank mp <;> simp [genI2VClick, hb]
  · by_cases hb : isBlank tp <;> simp [genT2VClick, hb]

/-- C7: with a selectbox-valid aspect ratio, a Generate Image click with a
blank prompt shows the error and sends nothing, while a non-blank prompt
sends exactly one request carrying the prompt, the mapped aspect ratio and
the active safety tolerance. -/
theorem c7_generate_image_single_request (env : RemoteEnv) (s : AppState)
    (p ar : String) (se : Bool) (lv : SafetyLevel) (har : ar ∈ aspectOptions) :
    (isBlank p = true →
       genImageClick env s p ar se lv
         = (s, [Event.errorShown "Please enter a prompt"])) ∧
    (isBlank p = false →
       ∃ a, aspectLookup ar = some a ∧
         subscribeCalls (genImageClick env s p ar se lv).2
           = [(t2iEndpoint, t2iArgsOf p a se lv)]) := by
  constructor
  · intro hb
    exact genImageClick_of_blank env s p ar se lv hb
  · intro hb
    have har2 : ar = "1:1 (Square)" ∨ ar = "16:9 (Landscape)" ∨ ar = "9:16 (Portrait)" := by
      simpa [aspectOptions] using har
    rcases har2 with rfl | rfl | rfl
    · exact ⟨"1:1", rfl,
        subscribeCalls_genImageClick_some env s p "1:1 (Square)" se lv "1:1" hb rfl⟩
    · exact ⟨"16:9", rfl,
        subscribeCalls_genImageClick_some env s p "16:9 (Landscape)" se lv "16:9" hb rfl⟩
    · exact ⟨"9:16", rfl,
        subscribeCalls_genImageClick_some env s p "9:16 (Portrait)" se lv "9:16" hb rfl⟩

/-- C7 witness: the blank prompt "  " is rejected with no submission, and
the prompt "hello" yields exactly one request with the mapped ratio. -/
theorem c7_witness :
    genImageClick goodEnv s0 "  " "1:1 (Square)" true SafetyLevel.Moderate
      = (s0, [Event.errorShown "Please enter a prompt"]) ∧
    (∃ a, aspectLookup "1:1 (Square)" = some a ∧
       subscribeCalls (genImageClick goodEnv s0 "hello" "1:1 (Square)" true
           SafetyLevel.Moderate).2
         = [(t2iEndpoint, t2iArgsOf "hello" a true SafetyLevel.Moderate)]) := by
  constructor
  · exact (c7_generate_image_single_request goodEnv s0 "  " "1:1 (Square)" true
      SafetyLevel.Moderate (by simp [aspectOptions])).1 rfl
  · exact (c7_generate_image_single_request goodEnv s0 "hello" "1:1 (Square)" true
      SafetyLevel.Moderate (by simp [aspectOptions])).2 rfl

/-- C8: the Text-to-Image arguments always carry the fixed seed 42, and two
Generate Image clicks with the same prompt, aspect-ratio selection and
safety settings record identical submissions, whatever the remote service
and session state of each run. -/
theorem c8_fixed_seed_and_determinism (env1 env2 : RemoteEnv) (s1a s2a : AppState)
    (p ar q a : String) (se : Bool) (lv : SafetyLevel) :
    dictLookup "seed" (t2iArgsOf q a se lv) = some (Value.num 42) ∧
    subscribeCalls (genImageClick env1 s1a p ar se lv).2
      = subscribeCalls (genImageClick env2 s2a p ar se lv).2 := by
  refine ⟨rfl, ?_⟩
  by_cases hb : isBlank p
  · rw [subscribeCalls_genImageClick_blank env1 s1a p ar se lv hb,
        subscribeCalls_genImageClick_blank env2 s2a p ar se lv hb]
  · simp only [Bool.not_eq_true] at hb
    rcases ha : aspectLookup ar with _ | a2
    · rw [subscribeCalls_genImageClick_keyerr env1 s1a p ar se lv hb ha,
          subscribeCalls_genImageClick_keyerr env2 s2a p ar se lv hb ha]
    · rw [subscribeCalls_genImageClick_some env1 s1a p ar se lv a2 hb ha,
          subscribeCalls_genImageClick_some env2 s2a p ar se lv a2 hb ha]

/-- C9: the Image-Editor submission carries no image key — the mapping
holds no "image" or "image_url" entry — and for any two input images with
the same edit prompt and settings, the recorded submissions coincide. -/
theorem c9_editor_request_ignores_image (env : RemoteEnv) (s : AppState)
    (img1 img2 : EditImage) (ep : String) (se : Bool) (lv : SafetyLevel) :
    dictLookup "image" (editorArgs ep se lv) = none ∧
    dictLookup "image_url" (editorArgs ep se lv) = none ∧
    subscribeCalls (applyEditsClick env s img1 ep se lv).2
      = subscribeCalls (applyEditsClick env s img2 ep se lv).2 := by
  refine ⟨rfl, rfl, ?_⟩
  by_cases hb : isBlank ep
  · rw [subscribeCalls_applyEditsClick_blank env s img1 ep se lv hb,
        subscribeCalls_applyEditsClick_blank env s img2 ep se lv hb]
  · simp only [Bool.not_eq_true] at hb
    rw [subscribeCalls_applyEditsClick_go env s img1 ep se lv hb,
        subscribeCalls_applyEditsClick_go env s img2 ep se lv hb]

/-- C10: every option of the Aspect Ratio selectbox is a key of aspect_map,
so the lookup in the Generate Image handler never raises KeyError. -/
theorem c10_aspect_map_covers_options (ar : String) (h : ar ∈ aspectOptions) :
    (aspectLookup ar).isSome = true := by
  have h2 : ar = "1:1 (Square)" ∨ ar = "16:9 (Landscape)" ∨ ar = "9:16 (Portrait)" := by
    simpa [aspectOptions] using h
  rcases h2 with rfl | rfl | rfl <;> rfl

/-- C10 witness: the first selectbox option is a key of aspect_map. -/
theorem c10_witness : (aspectLookup "1:1 (Square)").isSome = true :=
  c10_aspect_map_covers_options "1:1 (Square)" (by simp [aspectOptions])
